import Mathlib

/-!
Verification of the anomaly-detection training pipeline in
`anomaly_training.py` (SensorIoT REST server).

The Python source is shallowly embedded: pandas/numpy pipelines become
explicit list processing over `ℚ` (floats are modelled as rationals, which
is faithful for the orderings, medians and floor divisions the claims are
about), MongoDB queries and the scikit-learn detector calls become oracle
parameters (`Except`/`Option` valued functions), and the filesystem model
store becomes an explicit state record.
-/

namespace SensorIoT

/-! ### numpy helpers

`np.diff` on a 1-d array and `np.median` (sort, take middle, or mean of the
two middle elements when the length is even). -/

/-- `np.diff`: consecutive differences of a list. -/
def npDiff : List ℚ → List ℚ
  | a :: b :: rest => (b - a) :: npDiff (b :: rest)
  | _ => []

/-- `np.median`: sort, then the middle element (odd length) or the mean of
the two middle elements (even length).  Python raises on an empty array;
callers below only invoke it on lists of length ≥ 1. -/
def npMedian (l : List ℚ) : ℚ :=
  let s := l.insertionSort (· ≤ ·)
  if s.length % 2 = 1 then s.getD (s.length / 2) 0
  else (s.getD (s.length / 2 - 1) 0 + s.getD (s.length / 2) 0) / 2

/-- Python `max` on a nonempty list (callers guard against `[]`;
we return `0` there, matching no caller). -/
def pyMax (l : List ℚ) : ℚ :=
  match l with
  | [] => 0
  | x :: xs => xs.foldl max x

/-! ### Module constants (`anomaly_training.py` lines 67–75) -/

def _LOOKBACK_DAYS : ℕ := 90
def _ANOMALY_THRESHOLD : ℚ := 1/2
def _BUCKET_SECONDS : ℕ := 60
def _BUCKET_CANDIDATES : List ℕ := [60, 120, 300, 600, 900, 1800, 3600]

/-! ### Data rows

A raw reading as returned by the `db.Sensors.find` projection, after the
`_clean` value normalizer has run: `_clean` strips byte-string artifacts and
parses a float, yielding NaN on failure; we model its result directly as
`Option ℚ` (`none` = NaN = unparsable).  `node_id` is modelled as the string
it is cast to (`astype(str)`). -/
structure RawRow where
  node_id : String
  type : String
  value : Option ℚ
  time : ℚ
deriving Repr, DecidableEq

/-- A row surviving `df.dropna(subset=['value'])`. -/
structure CleanRow where
  node_id : String
  type : String
  value : ℚ
  time : ℚ
deriving Repr, DecidableEq

/-- `df.dropna(subset=['value'])` after `_clean`: keep rows whose value
parsed. -/
def cleanRows (rows : List RawRow) : List CleanRow :=
  rows.filterMap (fun r => r.value.map (fun v => ⟨r.node_id, r.type, v, r.time⟩))

/-! ### Bucket Selector (`_optimal_bucket_seconds`, lines 78–100) -/

/-- `np.sort(df[(df['node_id'] == n) & (df['type'] == 'F')]['time'].values)` -/
def nodeFTimes (df : List CleanRow) (n : String) : List ℚ :=
  ((df.filter (fun r => r.node_id == n && r.type == "F")).map (·.time)).insertionSort (· ≤ ·)

/-- The `intervals` list built by the loop in `_optimal_bucket_seconds`:
for each node with ≥ 2 primary-signal readings, the median of consecutive
differences of its sorted times. -/
def nodeMedianIntervals (df : List CleanRow) (node_ids : List String) : List ℚ :=
  node_ids.filterMap (fun n =>
    let times := nodeFTimes df n
    if 2 ≤ times.length then some (npMedian (npDiff times)) else none)

/-- The candidate scan loop: first candidate `snap` with `snap >= max_interval`,
else the last candidate. -/
def selectSnap (max_interval : ℚ) : ℕ :=
  match _BUCKET_CANDIDATES.find? (fun (snap : ℕ) => decide (max_interval ≤ (snap : ℚ))) with
  | some snap => snap
  | none => _BUCKET_CANDIDATES.getLastD _BUCKET_SECONDS

/-- `_optimal_bucket_seconds(df, node_ids)`. -/
def optimalBucketSeconds (df : List CleanRow) (node_ids : List String) : ℕ :=
  let intervals := nodeMedianIntervals df node_ids
  if intervals = [] then _BUCKET_SECONDS
  else selectSnap (pyMax intervals)

theorem selectSnap_eq_60 {m : ℚ} (h : m ≤ 60) : selectSnap m = 60 := by
  simp [selectSnap, _BUCKET_CANDIDATES, List.find?, h]

theorem selectSnap_eq_120 {m : ℚ} (h0 : 60 < m) (h : m ≤ 120) : selectSnap m = 120 := by
  simp [selectSnap, _BUCKET_CANDIDATES, List.find?, h0.not_le, h]

theorem selectSnap_eq_300 {m : ℚ} (h0 : 120 < m) (h : m ≤ 300) : selectSnap m = 300 := by
  have h1 : ¬m ≤ 60 := by linarith
  simp [selectSnap, _BUCKET_CANDIDATES, List.find?, h1, h0.not_le, h]

theorem selectSnap_eq_600 {m : ℚ} (h0 : 300 < m) (h : m ≤ 600) : selectSnap m = 600 := by
  have h1 : ¬m ≤ 60 := by linarith
  have h2 : ¬m ≤ 120 := by linarith
  simp [selectSnap, _BUCKET_CANDIDATES, List.find?, h1, h2, h0.not_le, h]

theorem selectSnap_eq_900 {m : ℚ} (h0 : 600 < m) (h : m ≤ 900) : selectSnap m = 900 := by
  have h1 : ¬m ≤ 60 := by linarith
  have h2 : ¬m ≤ 120 := by linarith
  have h3 : ¬m ≤ 300 := by linarith
  simp [selectSnap, _BUCKET_CANDIDATES, List.find?, h1, h2, h3, h0.not_le, h]

theorem selectSnap_eq_1800 {m : ℚ} (h0 : 900 < m) (h : m ≤ 1800) : selectSnap m = 1800 := by
  have h1 : ¬m ≤ 60 := by linarith
  have h2 : ¬m ≤ 120 := by linarith
  have h3 : ¬m ≤ 300 := by linarith
  have h4 : ¬m ≤ 600 := by linarith
  simp [selectSnap, _BUCKET_CANDIDATES, List.find?, h1, h2, h3, h4, h0.not_le, h]

theorem selectSnap_eq_3600 {m : ℚ} (h0 : 1800 < m) (h : m ≤ 3600) : selectSnap m = 3600 := by
  have h1 : ¬m ≤ 60 := by linarith
  have h2 : ¬m ≤ 120 := by linarith
  have h3 : ¬m ≤ 300 := by linarith
  have h4 : ¬m ≤ 600 := by linarith
  have h5 : ¬m ≤ 900 := by linarith
  simp [selectSnap, _BUCKET_CANDIDATES, List.find?, h1, h2, h3, h4, h5, h0.not_le, h]

theorem selectSnap_eq_last {m : ℚ} (h0 : 3600 < m) : selectSnap m = 3600 := by
  have h1 : ¬m ≤ 60 := by linarith
  have h2 : ¬m ≤ 120 := by linarith
  have h3 : ¬m ≤ 300 := by linarith
  have h4 : ¬m ≤ 600 := by linarith
  have h5 : ¬m ≤ 900 := by linarith
  have h6 : ¬m ≤ 1800 := by linarith
  simp [selectSnap, _BUCKET_CANDIDATES, List.getLastD, List.find?, h1, h2, h3, h4, h5, h6,
    h0.not_le]

theorem selectSnap_spec (m : ℚ) :
    selectSnap m ∈ _BUCKET_CANDIDATES ∧
    (m ≤ (selectSnap m : ℚ) ∨ ((3600 : ℚ) < m ∧ selectSnap m = 3600)) ∧
    (∀ c ∈ _BUCKET_CANDIDATES, m ≤ (c : ℚ) → selectSnap m ≤ c) := by
  have main : ∀ (v : ℕ), selectSnap m = v → v ∈ _BUCKET_CANDIDATES →
      (m ≤ (v : ℚ) ∨ ((3600 : ℚ) < m ∧ v = 3600)) →
      (∀ c ∈ _BUCKET_CANDIDATES, m ≤ (c : ℚ) → v ≤ c) →
      selectSnap m ∈ _BUCKET_CANDIDATES ∧
      (m ≤ (selectSnap m : ℚ) ∨ ((3600 : ℚ) < m ∧ selectSnap m = 3600)) ∧
      (∀ c ∈ _BUCKET_CANDIDATES, m ≤ (c : ℚ) → selectSnap m ≤ c) := by
    rintro v hv h1 h2 h3
    rw [hv]
    exact ⟨h1, h2, h3⟩
  rcases le_or_lt m 60 with h | h60
  · refine main 60 (selectSnap_eq_60 h) (by norm_num [_BUCKET_CANDIDATES])
      (Or.inl (by push_cast; linarith)) ?_
    intro c hc _
    fin_cases hc <;> norm_num
  rcases le_or_lt m 120 with h | h120
  · refine main 120 (selectSnap_eq_120 h60 h) (by norm_num [_BUCKET_CANDIDATES])
      (Or.inl (by push_cast; linarith)) ?_
    intro c hc hcm
    fin_cases hc <;> push_cast at hcm <;> first | (exfalso; linarith) | norm_num
  rcases le_or_lt m 300 with h | h300
  · refine main 300 (selectSnap_eq_300 h120 h) (by norm_num [_BUCKET_CANDIDATES])
      (Or.inl (by push_cast; linarith)) ?_
    intro c hc hcm
    fin_cases hc <;> push_cast at hcm <;> first | (exfalso; linarith) | norm_num
  rcases le_or_lt m 600 with h | h600
  · refine main 600 (selectSnap_eq_600 h300 h) (by norm_num [_BUCKET_CANDIDATES])
      (Or.inl (by push_cast; linarith)) ?_
    intro c hc hcm
    fin_cases hc <;> push_cast at hcm <;> first | (exfalso; linarith) | norm_num
  rcases le_or_lt m 900 with h | h900
  · refine main 900 (selectSnap_eq_900 h600 h) (by norm_num [_BUCKET_CANDIDATES])
      (Or.inl (by push_cast; linarith)) ?_
    intro c hc hcm
    fin_cases hc <;> push_cast at hcm <;> first | (exfalso; linarith) | norm_num
  rcases le_or_lt m 1800 with h | h1800
  · refine main 1800 (selectSnap_eq_1800 h900 h) (by norm_num [_BUCKET_CANDIDATES])
      (Or.inl (by push_cast; linarith)) ?_
    intro c hc hcm
    fin_cases hc <;> push_cast at hcm <;> first | (exfalso; linarith) | norm_num
  rcases le_or_lt m 3600 with h | h3600
  · refine main 3600 (selectSnap_eq_3600 h1800 h) (by norm_num [_BUCKET_CANDIDATES])
      (Or.inl (by push_cast; linarith)) ?_
    intro c hc hcm
    fin_cases hc <;> push_cast at hcm <;> first | (exfalso; linarith) | norm_num
  · refine main 3600 (selectSnap_eq_last h3600) (by norm_num [_BUCKET_CANDIDATES])
      (Or.inr ⟨h3600, rfl⟩) ?_
    intro c hc hcm
    fin_cases hc <;> push_cast at hcm <;> exfalso <;> linarith

/-! `pyMax` really is the maximum of a nonempty list. -/

theorem le_foldl_max (l : List ℚ) (a : ℚ) : a ≤ l.foldl max a := by
  induction l generalizing a with
  | nil => exact le_refl a
  | cons b t ih => exact le_trans (le_max_left a b) (ih (max a b))

theorem mem_le_foldl_max (l : List ℚ) (a : ℚ) : ∀ x ∈ l, x ≤ l.foldl max a := by
  induction l generalizing a with
  | nil => intro x hx; cases hx
  | cons b t ih =>
    intro x hx
    rcases List.mem_cons.mp hx with h | h
    · subst h
      exact le_trans (le_max_right a x) (le_foldl_max t (max a x))
    · exact ih (max a b) x h

theorem foldl_max_mem (l : List ℚ) (a : ℚ) : l.foldl max a = a ∨ l.foldl max a ∈ l := by
  induction l generalizing a with
  | nil => left; rfl
  | cons b t ih =>
    rcases ih (max a b) with h | h
    · rcases max_choice a b with hm | hm
      · left
        rw [List.foldl_cons, h, hm]
      · right
        rw [List.foldl_cons, h, hm]
        exact List.mem_cons_self b t
    · right
      exact List.mem_cons_of_mem b h

theorem pyMax_mem {l : List ℚ} (h : l ≠ []) : pyMax l ∈ l := by
  cases l with
  | nil => exact absurd rfl h
  | cons a t =>
    rcases foldl_max_mem t a with h' | h'
    · rw [pyMax, h']
      exact List.mem_cons_self a t
    · exact List.mem_cons_of_mem a h'

theorem le_pyMax {l : List ℚ} {x : ℚ} (h : x ∈ l) : x ≤ pyMax l := by
  cases l with
  | nil => cases h
  | cons a t =>
    rcases List.mem_cons.mp h with h' | h'
    · subst h'
      exact le_foldl_max t x
    · exact mem_le_foldl_max t a x h'

/-- **C2**: `_optimal_bucket_seconds` returns the smallest value of the fixed
ascending candidate list (60, 120, 300, 600, 900, 1800, 3600 s) that is ≥ the
maximum over nodes of the median of consecutive differences of that node's
sorted primary-signal (`'F'`) timestamps, nodes with fewer than 2 such
readings being excluded; if that maximum exceeds every candidate it returns
the largest candidate 3600; if no node yields a valid median it returns the
fixed minimum width `_BUCKET_SECONDS = 60`. -/
theorem optimal_bucket_seconds_spec (df : List CleanRow) (ns : List String) :
    (nodeMedianIntervals df ns = [] → optimalBucketSeconds df ns = _BUCKET_SECONDS) ∧
    (nodeMedianIntervals df ns ≠ [] →
      optimalBucketSeconds df ns ∈ _BUCKET_CANDIDATES ∧
      (pyMax (nodeMedianIntervals df ns) ≤ (optimalBucketSeconds df ns : ℚ) ∨
        ((3600 : ℚ) < pyMax (nodeMedianIntervals df ns) ∧
          optimalBucketSeconds df ns = 3600)) ∧
      (∀ c ∈ _BUCKET_CANDIDATES, pyMax (nodeMedianIntervals df ns) ≤ (c : ℚ) →
        optimalBucketSeconds df ns ≤ c)) := by
  constructor
  · intro h
    simp [optimalBucketSeconds, h]
  · intro h
    have hrw : optimalBucketSeconds df ns = selectSnap (pyMax (nodeMedianIntervals df ns)) := by
      simp [optimalBucketSeconds, h]
    rw [hrw]
    exact selectSnap_spec _

/-- A concrete run of the Bucket Selector: one node reporting every 90 s
selects the 120 s bucket; the empty reading set selects the 60 s fallback. -/
def dfC2 : List CleanRow := [⟨"1", "F", 1, 0⟩, ⟨"1", "F", 1, 90⟩]

theorem optimal_bucket_seconds_spec_witness :
    (nodeMedianIntervals [] [] = [] ∧ optimalBucketSeconds [] [] = _BUCKET_SECONDS) ∧
    (nodeMedianIntervals dfC2 ["1"] ≠ [] ∧
      (optimalBucketSeconds dfC2 ["1"] ∈ _BUCKET_CANDIDATES ∧
        (pyMax (nodeMedianIntervals dfC2 ["1"]) ≤ (optimalBucketSeconds dfC2 ["1"] : ℚ) ∨
          ((3600 : ℚ) < pyMax (nodeMedianIntervals dfC2 ["1"]) ∧
            optimalBucketSeconds dfC2 ["1"] = 3600)) ∧
        (∀ c ∈ _BUCKET_CANDIDATES, pyMax (nodeMedianIntervals dfC2 ["1"]) ≤ (c : ℚ) →
          optimalBucketSeconds dfC2 ["1"] ≤ c))) := by
  have hempty : nodeMedianIntervals ([] : List CleanRow) ([] : List String) = [] := rfl
  have h : nodeMedianIntervals dfC2 ["1"] ≠ [] := by
    have h1 : nodeFTimes dfC2 "1" = [0, 90] := by
      norm_num [nodeFTimes, dfC2, List.insertionSort, List.orderedInsert]
    have h90 : nodeMedianIntervals dfC2 ["1"] = [90] := by
      norm_num [nodeMedianIntervals, List.filterMap_cons, List.filterMap_nil, h1, npDiff,
        npMedian, List.insertionSort, List.orderedInsert]
    rw [h90]
    simp
  exact ⟨⟨hempty, (optimal_bucket_seconds_spec [] []).1 hempty⟩,
    ⟨h, (optimal_bucket_seconds_spec dfC2 ["1"]).2 h⟩⟩

/-! ### Feature Aligner (`get_gateway_dataframe`, lines 107–178)

The MongoDB query (`db.Sensors.find` + `list(cursor)`) is modelled as its
result, an `Except`: `.error` when the query raises, `.ok rows` otherwise.
`List.insertionSort` stands for pandas' ascending sorts and
`List.dedup` for `.unique()` (order of the deduplicated list is irrelevant:
it is sorted immediately afterwards, or used only as a set). -/

/-- `sorted(df['node_id'].unique())`. -/
def uniqueSortedNodes (df : List CleanRow) : List String :=
  ((df.map (·.node_id)).dedup).insertionSort (· ≤ ·)

/-- `df['bucket'] = (df['time'] // bucket_secs).astype(int) * bucket_secs`
(Python `//` on floats is the floor). -/
def bucketOf (bs : ℕ) (t : ℚ) : ℤ := ⌊t / (bs : ℚ)⌋ * bs

/-- `df['col'] = df['node_id'] + '_' + df['type']`. -/
def colOf (r : CleanRow) : String := r.node_id ++ "_" ++ r.type

/-- One cell of `pivot_table(index='bucket', columns='col', values='value',
aggfunc='first')`: the first reading (in row order) falling in bucket `b`
under column key `c`; `none` when the bucket has no reading for that key. -/
def cell (clean : List CleanRow) (bs : ℕ) (b : ℤ) (c : String) : Option ℚ :=
  (clean.find? (fun r => bucketOf bs r.time == b && colOf r == c)).map (·.value)

/-- The pivot table's column set: every column key observed in the window. -/
def pivotCols (clean : List CleanRow) : List String :=
  (clean.map colOf).dedup

/-- The pivot table's index: the distinct bucket values in ascending order. -/
def pivotBuckets (clean : List CleanRow) (bs : ℕ) : List ℤ :=
  ((clean.map (fun r => bucketOf bs r.time)).dedup).insertionSort (· ≤ ·)

/-- `required = [f'{n}_{t}' for n in node_ids for t in ('F', 'H')
                 if f'{n}_{t}' in pivoted.columns]`. -/
def requiredCols (node_ids : List String) (pcols : List String) : List String :=
  (node_ids.flatMap (fun n => [n ++ "_F", n ++ "_H"])).filter (fun c => pcols.contains c)

/-- `pivoted.dropna(subset=required)`: the buckets whose row has a value in
every required column. -/
def completeBuckets (clean : List CleanRow) (bs : ℕ) (required : List String) : List ℤ :=
  (pivotBuckets clean bs).filter (fun b => required.all (fun c => (cell clean bs b c).isSome))

/-- One aligned row of the pivot table: the value of every observed column
at bucket `b` (`none` for a sparse non-required cell). -/
def pivotRow (clean : List CleanRow) (bs : ℕ) (pcols : List String) (b : ℤ) :
    List (String × Option ℚ) :=
  pcols.map (fun c => (c, cell clean bs b c))

/-- The aligned wide DataFrame returned by `get_gateway_dataframe`:
each row is `(time_rounded, cells)`. -/
structure GatewayFrame where
  bucket_secs : ℕ
  columns : List String
  required : List String
  rows : List (ℤ × List (String × Option ℚ))
deriving Repr, DecidableEq

/-- The bucket size chosen inside `get_gateway_dataframe`. -/
def alignedBucketSecs (rows : List RawRow) : ℕ :=
  optimalBucketSeconds (cleanRows rows) (uniqueSortedNodes (cleanRows rows))

/-- The `required` list computed inside `get_gateway_dataframe`. -/
def alignedRequired (rows : List RawRow) : List String :=
  requiredCols (uniqueSortedNodes (cleanRows rows)) (pivotCols (cleanRows rows))

/-- The buckets surviving `dropna(subset=required)`. -/
def alignedKept (rows : List RawRow) : List ℤ :=
  completeBuckets (cleanRows rows) (alignedBucketSecs rows) (alignedRequired rows)

/-- `get_gateway_dataframe(db, gateway_id)` on the query's outcome:
`none` models the Python `None` return ("insufficient data"). -/
def getGatewayDataframe (queryResult : Except String (List RawRow)) : Option GatewayFrame :=
  match queryResult with
  | .error _ => none
  | .ok rows =>
    if rows = [] then none
    else if alignedRequired rows = [] then none
    else if (alignedKept rows).length < 20 then none
    else some ⟨alignedBucketSecs rows, pivotCols (cleanRows rows), alignedRequired rows,
      (alignedKept rows).map (fun b =>
        (b, pivotRow (cleanRows rows) (alignedBucketSecs rows) (pivotCols (cleanRows rows)) b))⟩

/-- Looking up a key present in `l` in the association list pairing each
element of `l` with `f` of it yields exactly `f` of the key. -/
theorem lookup_map_pair {α β : Type} [DecidableEq α] (l : List α) (f : α → β) (c : α)
    (hc : c ∈ l) : (l.map (fun x => (x, f x))).lookup c = some (f c) := by
  induction l with
  | nil => cases hc
  | cons a t ih =>
    rcases List.mem_cons.mp hc with h | h
    · subst h
      simp [List.lookup]
    · by_cases hca : c = a
      · subst hca
        simp [List.lookup]
      · simp only [List.map_cons, List.lookup]
        have hb : (c == a) = false := by simpa using hca
        rw [hb]
        exact ih h

/-- **C3**: every row of the aligned matrix produced by `get_gateway_dataframe`
has a non-missing value in every required column, and the required columns are
exactly the `{node}_F` / `{node}_H` keys actually observed at least once in
the window — a (node, signal) pair never observed produces no column, is not
required, and hence never causes a row to be dropped. -/
theorem get_gateway_dataframe_rows_complete (rows : List RawRow) (gf : GatewayFrame)
    (h : getGatewayDataframe (.ok rows) = some gf) :
    (∀ br ∈ gf.rows, ∀ c ∈ gf.required, ∃ v : ℚ, br.2.lookup c = some (some v)) ∧
    (∀ c : String, c ∈ gf.required ↔
      ((∃ n ∈ uniqueSortedNodes (cleanRows rows), c = n ++ "_F" ∨ c = n ++ "_H") ∧
        c ∈ gf.columns)) := by
  simp only [getGatewayDataframe] at h
  split_ifs at h with h1 h2 h3
  all_goals cases h
  constructor
  · intro br hbr c hcr
    obtain ⟨b, hb, rfl⟩ := List.mem_map.mp hbr
    have hcp : c ∈ pivotCols (cleanRows rows) := by
      simp only [alignedRequired, requiredCols, List.mem_filter] at hcr
      simpa using hcr.2
    have hlk : (pivotRow (cleanRows rows) (alignedBucketSecs rows)
        (pivotCols (cleanRows rows)) b).lookup c
        = some (cell (cleanRows rows) (alignedBucketSecs rows) b c) :=
      lookup_map_pair _ _ c hcp
    simp only [alignedKept, completeBuckets, List.mem_filter] at hb
    have hall := List.all_eq_true.mp hb.2 c hcr
    obtain ⟨v, hv⟩ := Option.isSome_iff_exists.mp hall
    exact ⟨v, by rw [hlk, hv]⟩
  · intro c
    simp only [alignedRequired, requiredCols, List.mem_filter, List.mem_flatMap]
    simp [and_comm]

/-- **C7**: `get_gateway_dataframe` returns the insufficient-data outcome
(`None`) exactly when the reading-store query raises, or it returns no rows,
or no required F/H column exists after pivoting, or fewer than 20 complete
rows remain after dropping incomplete rows; otherwise it returns an aligned
matrix with at least 20 rows. -/
theorem get_gateway_dataframe_none_iff (q : Except String (List RawRow)) :
    (getGatewayDataframe q = none ↔
      (∃ e, q = .error e) ∨ q = .ok [] ∨
      (∃ rows, q = .ok rows ∧ alignedRequired rows = []) ∨
      (∃ rows, q = .ok rows ∧ (alignedKept rows).length < 20)) ∧
    Option.elim (getGatewayDataframe q) True (fun gf => 20 ≤ gf.rows.length) := by
  cases q with
  | error e =>
    constructor
    · simp [getGatewayDataframe]
    · simp [getGatewayDataframe]
  | ok rows =>
    by_cases hr : rows = []
    · subst hr
      constructor
      · simp [getGatewayDataframe]
      · simp [getGatewayDataframe]
    · by_cases hreq : alignedRequired rows = []
      · constructor
        · simp only [getGatewayDataframe, if_neg hr, if_pos hreq]
          simp [hr, hreq]
        · simp [getGatewayDataframe, hr, hreq]
      · by_cases hk : (alignedKept rows).length < 20
        · constructor
          · simp only [getGatewayDataframe, if_neg hr, if_neg hreq, if_pos hk]
            simp [hr, hreq, hk]
          · simp [getGatewayDataframe, hr, hreq, hk]
        · constructor
          · simp only [getGatewayDataframe, if_neg hr, if_neg hreq, if_neg hk]
            simp [hr, hreq, hk]
          · simp only [getGatewayDataframe, if_neg hr, if_neg hreq, if_neg hk]
            simp only [Option.elim]
            rw [List.length_map]
            omega

/-- Concrete Feature-Aligner run for the witness: one node reporting only its
`H` signal every 60 s for 20 buckets (its `F` signal withheld for the whole
window, so `1_F` is neither a column nor required). -/
def rawC3 : List RawRow :=
  [⟨"1", "H", some 1, 0⟩, ⟨"1", "H", some 1, 60⟩, ⟨"1", "H", some 1, 120⟩, ⟨"1", "H", some 1, 180⟩, ⟨"1", "H", some 1, 240⟩, ⟨"1", "H", some 1, 300⟩, ⟨"1", "H", some 1, 360⟩, ⟨"1", "H", some 1, 420⟩, ⟨"1", "H", some 1, 480⟩, ⟨"1", "H", some 1, 540⟩, ⟨"1", "H", some 1, 600⟩, ⟨"1", "H", some 1, 660⟩, ⟨"1", "H", some 1, 720⟩, ⟨"1", "H", some 1, 780⟩, ⟨"1", "H", some 1, 840⟩, ⟨"1", "H", some 1, 900⟩, ⟨"1", "H", some 1, 960⟩, ⟨"1", "H", some 1, 1020⟩, ⟨"1", "H", some 1, 1080⟩, ⟨"1", "H", some 1, 1140⟩]

def cleanC3 : List CleanRow :=
  [⟨"1", "H", 1, 0⟩, ⟨"1", "H", 1, 60⟩, ⟨"1", "H", 1, 120⟩, ⟨"1", "H", 1, 180⟩, ⟨"1", "H", 1, 240⟩, ⟨"1", "H", 1, 300⟩, ⟨"1", "H", 1, 360⟩, ⟨"1", "H", 1, 420⟩, ⟨"1", "H", 1, 480⟩, ⟨"1", "H", 1, 540⟩, ⟨"1", "H", 1, 600⟩, ⟨"1", "H", 1, 660⟩, ⟨"1", "H", 1, 720⟩, ⟨"1", "H", 1, 780⟩, ⟨"1", "H", 1, 840⟩, ⟨"1", "H", 1, 900⟩, ⟨"1", "H", 1, 960⟩, ⟨"1", "H", 1, 1020⟩, ⟨"1", "H", 1, 1080⟩, ⟨"1", "H", 1, 1140⟩]

def bucketsC3 : List ℤ :=
  [0, 60, 120, 180, 240, 300, 360, 420, 480, 540, 600, 660, 720, 780, 840, 900, 960, 1020, 1080, 1140]

def gfC3 : GatewayFrame :=
  ⟨60, ["1_H"], ["1_H"],
   [(0, [("1_H", some 1)]), (60, [("1_H", some 1)]), (120, [("1_H", some 1)]), (180, [("1_H", some 1)]), (240, [("1_H", some 1)]), (300, [("1_H", some 1)]), (360, [("1_H", some 1)]), (420, [("1_H", some 1)]), (480, [("1_H", some 1)]), (540, [("1_H", some 1)]), (600, [("1_H", some 1)]), (660, [("1_H", some 1)]), (720, [("1_H", some 1)]), (780, [("1_H", some 1)]), (840, [("1_H", some 1)]), (900, [("1_H", some 1)]), (960, [("1_H", some 1)]), (1020, [("1_H", some 1)]), (1080, [("1_H", some 1)]), (1140, [("1_H", some 1)])]⟩

theorem getGatewayDataframe_rawC3_eval :
    getGatewayDataframe (.ok rawC3) = some gfC3 := by
  have e1 : cleanRows rawC3 = cleanC3 := by decide
  have e2 : uniqueSortedNodes cleanC3 = ["1"] := by decide
  have e3 : alignedBucketSecs rawC3 = 60 := by
    rw [alignedBucketSecs, e1, e2]
    decide
  have e4 : pivotCols cleanC3 = ["1_H"] := by decide
  have e5 : alignedRequired rawC3 = ["1_H"] := by
    rw [alignedRequired, e1, e2, e4]
    decide
  have hb0 : bucketOf 60 (0 : ℚ) = 0 := by norm_num [bucketOf]
  have hb1 : bucketOf 60 (60 : ℚ) = 60 := by norm_num [bucketOf]
  have hb2 : bucketOf 60 (120 : ℚ) = 120 := by norm_num [bucketOf]
  have hb3 : bucketOf 60 (180 : ℚ) = 180 := by norm_num [bucketOf]
  have hb4 : bucketOf 60 (240 : ℚ) = 240 := by norm_num [bucketOf]
  have hb5 : bucketOf 60 (300 : ℚ) = 300 := by norm_num [bucketOf]
  have hb6 : bucketOf 60 (360 : ℚ) = 360 := by norm_num [bucketOf]
  have hb7 : bucketOf 60 (420 : ℚ) = 420 := by norm_num [bucketOf]
  have hb8 : bucketOf 60 (480 : ℚ) = 480 := by norm_num [bucketOf]
  have hb9 : bucketOf 60 (540 : ℚ) = 540 := by norm_num [bucketOf]
  have hb10 : bucketOf 60 (600 : ℚ) = 600 := by norm_num [bucketOf]
  have hb11 : bucketOf 60 (660 : ℚ) = 660 := by norm_num [bucketOf]
  have hb12 : bucketOf 60 (720 : ℚ) = 720 := by norm_num [bucketOf]
  have hb13 : bucketOf 60 (780 : ℚ) = 780 := by norm_num [bucketOf]
  have hb14 : bucketOf 60 (840 : ℚ) = 840 := by norm_num [bucketOf]
  have hb15 : bucketOf 60 (900 : ℚ) = 900 := by norm_num [bucketOf]
  have hb16 : bucketOf 60 (960 : ℚ) = 960 := by norm_num [bucketOf]
  have hb17 : bucketOf 60 (1020 : ℚ) = 1020 := by norm_num [bucketOf]
  have hb18 : bucketOf 60 (1080 : ℚ) = 1080 := by norm_num [bucketOf]
  have hb19 : bucketOf 60 (1140 : ℚ) = 1140 := by norm_num [bucketOf]
  have e6 : cleanC3.map (fun r => bucketOf 60 r.time) = bucketsC3 := by
    simp [cleanC3, bucketsC3, hb0, hb1, hb2, hb3, hb4, hb5, hb6, hb7, hb8, hb9, hb10, hb11, hb12, hb13, hb14, hb15, hb16, hb17, hb18, hb19]
  have e7 : pivotBuckets cleanC3 60 = bucketsC3 := by
    simp only [pivotBuckets, e6]
    decide
  have ec0 : cell cleanC3 60 0 "1_H" = some 1 := by
    simp [cell, cleanC3, colOf, List.find?, hb0, hb1, hb2, hb3, hb4, hb5, hb6, hb7, hb8, hb9, hb10, hb11, hb12, hb13, hb14, hb15, hb16, hb17, hb18, hb19]
  have ec1 : cell cleanC3 60 60 "1_H" = some 1 := by
    simp [cell, cleanC3, colOf, List.find?, hb0, hb1, hb2, hb3, hb4, hb5, hb6, hb7, hb8, hb9, hb10, hb11, hb12, hb13, hb14, hb15, hb16, hb17, hb18, hb19]
  have ec2 : cell cleanC3 60 120 "1_H" = some 1 := by
    simp [cell, cleanC3, colOf, List.find?, hb0, hb1, hb2, hb3, hb4, hb5, hb6, hb7, hb8, hb9, hb10, hb11, hb12, hb13, hb14, hb15, hb16, hb17, hb18, hb19]
  have ec3 : cell cleanC3 60 180 "1_H" = some 1 := by
    simp [cell, cleanC3, colOf, List.find?, hb0, hb1, hb2, hb3, hb4, hb5, hb6, hb7, hb8, hb9, hb10, hb11, hb12, hb13, hb14, hb15, hb16, hb17, hb18, hb19]
  have ec4 : cell cleanC3 60 240 "1_H" = some 1 := by
    simp [cell, cleanC3, colOf, List.find?, hb0, hb1, hb2, hb3, hb4, hb5, hb6, hb7, hb8, hb9, hb10, hb11, hb12, hb13, hb14, hb15, hb16, hb17, hb18, hb19]
  have ec5 : cell cleanC3 60 300 "1_H" = some 1 := by
    simp [cell, cleanC3, colOf, List.find?, hb0, hb1, hb2, hb3, hb4, hb5, hb6, hb7, hb8, hb9, hb10, hb11, hb12, hb13, hb14, hb15, hb16, hb17, hb18, hb19]
  have ec6 : cell cleanC3 60 360 "1_H" = some 1 := by
    simp [cell, cleanC3, colOf, List.find?, hb0, hb1, hb2, hb3, hb4, hb5, hb6, hb7, hb8, hb9, hb10, hb11, hb12, hb13, hb14, hb15, hb16, hb17, hb18, hb19]
  have ec7 : cell cleanC3 60 420 "1_H" = some 1 := by
    simp [cell, cleanC3, colOf, List.find?, hb0, hb1, hb2, hb3, hb4, hb5, hb6, hb7, hb8, hb9, hb10, hb11, hb12, hb13, hb14, hb15, hb16, hb17, hb18, hb19]
  have ec8 : cell cleanC3 60 480 "1_H" = some 1 := by
    simp [cell, cleanC3, colOf, List.find?, hb0, hb1, hb2, hb3, hb4, hb5, hb6, hb7, hb8, hb9, hb10, hb11, hb12, hb13, hb14, hb15, hb16, hb17, hb18, hb19]
  have ec9 : cell cleanC3 60 540 "1_H" = some 1 := by
    simp [cell, cleanC3, colOf, List.find?, hb0, hb1, hb2, hb3, hb4, hb5, hb6, hb7, hb8, hb9, hb10, hb11, hb12, hb13, hb14, hb15, hb16, hb17, hb18, hb19]
  have ec10 : cell cleanC3 60 600 "1_H" = some 1 := by
    simp [cell, cleanC3, colOf, List.find?, hb0, hb1, hb2, hb3, hb4, hb5, hb6, hb7, hb8, hb9, hb10, hb11, hb12, hb13, hb14, hb15, hb16, hb17, hb18, hb19]
  have ec11 : cell cleanC3 60 660 "1_H" = some 1 := by
    simp [cell, cleanC3, colOf, List.find?, hb0, hb1, hb2, hb3, hb4, hb5, hb6, hb7, hb8, hb9, hb10, hb11, hb12, hb13, hb14, hb15, hb16, hb17, hb18, hb19]
  have ec12 : cell cleanC3 60 720 "1_H" = some 1 := by
    simp [cell, cleanC3, colOf, List.find?, hb0, hb1, hb2, hb3, hb4, hb5, hb6, hb7, hb8, hb9, hb10, hb11, hb12, hb13, hb14, hb15, hb16, hb17, hb18, hb19]
  have ec13 : cell cleanC3 60 780 "1_H" = some 1 := by
    simp [cell, cleanC3, colOf, List.find?, hb0, hb1, hb2, hb3, hb4, hb5, hb6, hb7, hb8, hb9, hb10, hb11, hb12, hb13, hb14, hb15, hb16, hb17, hb18, hb19]
  have ec14 : cell cleanC3 60 840 "1_H" = some 1 := by
    simp [cell, cleanC3, colOf, List.find?, hb0, hb1, hb2, hb3, hb4, hb5, hb6, hb7, hb8, hb9, hb10, hb11, hb12, hb13, hb14, hb15, hb16, hb17, hb18, hb19]
  have ec15 : cell cleanC3 60 900 "1_H" = some 1 := by
    simp [cell, cleanC3, colOf, List.find?, hb0, hb1, hb2, hb3, hb4, hb5, hb6, hb7, hb8, hb9, hb10, hb11, hb12, hb13, hb14, hb15, hb16, hb17, hb18, hb19]
  have ec16 : cell cleanC3 60 960 "1_H" = some 1 := by
    simp [cell, cleanC3, colOf, List.find?, hb0, hb1, hb2, hb3, hb4, hb5, hb6, hb7, hb8, hb9, hb10, hb11, hb12, hb13, hb14, hb15, hb16, hb17, hb18, hb19]
  have ec17 : cell cleanC3 60 1020 "1_H" = some 1 := by
    simp [cell, cleanC3, colOf, List.find?, hb0, hb1, hb2, hb3, hb4, hb5, hb6, hb7, hb8, hb9, hb10, hb11, hb12, hb13, hb14, hb15, hb16, hb17, hb18, hb19]
  have ec18 : cell cleanC3 60 1080 "1_H" = some 1 := by
    simp [cell, cleanC3, colOf, List.find?, hb0, hb1, hb2, hb3, hb4, hb5, hb6, hb7, hb8, hb9, hb10, hb11, hb12, hb13, hb14, hb15, hb16, hb17, hb18, hb19]
  have ec19 : cell cleanC3 60 1140 "1_H" = some 1 := by
    simp [cell, cleanC3, colOf, List.find?, hb0, hb1, hb2, hb3, hb4, hb5, hb6, hb7, hb8, hb9, hb10, hb11, hb12, hb13, hb14, hb15, hb16, hb17, hb18, hb19]
  have e8 : alignedKept rawC3 = bucketsC3 := by
    rw [alignedKept, e1, e3, e5]
    simp [completeBuckets, e7, bucketsC3, ec0, ec1, ec2, ec3, ec4, ec5, ec6, ec7, ec8, ec9, ec10, ec11, ec12, ec13, ec14, ec15, ec16, ec17, ec18, ec19]
  have hne1 : ¬(rawC3 = []) := by decide
  have hne3 : ¬(bucketsC3.length < 20) := by decide
  simp only [getGatewayDataframe]
  rw [if_neg hne1, e5]
  rw [if_neg (show ¬((["1_H"] : List String) = []) by decide), e8, if_neg hne3]
  simp only [e1, e3, e4]
  simp [bucketsC3, pivotRow, gfC3, ec0, ec1, ec2, ec3, ec4, ec5, ec6, ec7, ec8, ec9, ec10, ec11, ec12, ec13, ec14, ec15, ec16, ec17, ec18, ec19]


theorem get_gateway_dataframe_rows_complete_witness :
    getGatewayDataframe (.ok rawC3) = some gfC3 ∧
    ((∀ br ∈ gfC3.rows, ∀ c ∈ gfC3.required, ∃ v : ℚ, br.2.lookup c = some (some v)) ∧
     (∀ c : String, c ∈ gfC3.required ↔
       ((∃ n ∈ uniqueSortedNodes (cleanRows rawC3), c = n ++ "_F" ∨ c = n ++ "_H") ∧
         c ∈ gfC3.columns))) :=
  ⟨getGatewayDataframe_rawC3_eval,
    get_gateway_dataframe_rows_complete rawC3 gfC3 getGatewayDataframe_rawC3_eval⟩

/-! ### Trainer/Selector (`train_and_select_best`, lines 185–241)

The three scikit-learn detector variants and the AUC computation are
oracles: `outcome n = none` models variant `n` raising during `train_model`
or `predict` (it is then excluded from the `results` dict without aborting
the run), and `outcome n = some auc` models success with evaluation AUC
`auc`.  The `detectors` dict iterates in insertion order, which is the fixed
order below. -/

inductive DetectorName
  | isolationForest
  | oneClassSVM
  | nsRandomForest
deriving Repr, DecidableEq

/-- Insertion order of the `detectors` dict (line 215). -/
def detectorOrder : List DetectorName :=
  [.isolationForest, .oneClassSVM, .nsRandomForest]

/-- Position of a variant in the fixed insertion order. -/
def detectorIndex : DetectorName → ℕ
  | .isolationForest => 0
  | .oneClassSVM => 1
  | .nsRandomForest => 2

/-- The `results` dict after the training loop (lines 223–233): the variants
that did not raise, with their AUCs, in insertion order. -/
def detectorResults (outcome : DetectorName → Option ℚ) : List (DetectorName × ℚ) :=
  detectorOrder.filterMap (fun n => (outcome n).map (fun a => (n, a)))

/-- `best_name = max(results, key=lambda k: results[k][1])` followed by the
lookup of `(best_det, best_auc)`, or `raise RuntimeError` when `results` is
empty.  Python's `max` keeps the first item of the iteration whose key is
maximal (a later item replaces the current best only when strictly
greater). -/
def trainAndSelectBest (outcome : DetectorName → Option ℚ) :
    Except String (DetectorName × ℚ) :=
  match detectorResults outcome with
  | [] => .error "All detectors failed to train"
  | x :: xs => .ok (xs.foldl (fun best y => if y.2 > best.2 then y else best) x)

/-- **C1**: `train_and_select_best` returns the variant whose evaluation AUC
is numerically highest among the variants that did not raise; a raising
variant is excluded without aborting; on an exact AUC tie the
first-encountered variant in the fixed order (IsolationForest, OneClassSVM,
NS-RandomForest) wins; if all three variants raise the run fails with
`RuntimeError('All detectors failed to train')`. -/
theorem train_and_select_best_spec (outcome : DetectorName → Option ℚ) :
    ((∀ n, outcome n = none) →
      trainAndSelectBest outcome = .error "All detectors failed to train") ∧
    (∀ n a, trainAndSelectBest outcome = .ok (n, a) →
      outcome n = some a ∧
      (∀ m b, outcome m = some b → b ≤ a) ∧
      (∀ m b, outcome m = some b → detectorIndex m < detectorIndex n → b < a)) := by
  constructor
  · intro hall
    have h1 := hall DetectorName.isolationForest
    have h2 := hall DetectorName.oneClassSVM
    have h3 := hall DetectorName.nsRandomForest
    simp [trainAndSelectBest, detectorResults, detectorOrder, h1, h2, h3]
  · intro n a h
    rcases h1 : outcome DetectorName.isolationForest with _ | a1 <;>
      rcases h2 : outcome DetectorName.oneClassSVM with _ | a2 <;>
      rcases h3 : outcome DetectorName.nsRandomForest with _ | a3 <;>
      simp only [trainAndSelectBest, detectorResults, detectorOrder, List.filterMap_cons,
        List.filterMap_nil, h1, h2, h3, Option.map_some', Option.map_none', List.foldl] at h
    · exact absurd h (by simp)
    · cases h
      refine ⟨h3, ?_, ?_⟩
      · intro m b hm
        cases m
        · rw [h1] at hm; exact Option.noConfusion hm
        · rw [h2] at hm; exact Option.noConfusion hm
        · rw [h3] at hm; cases hm; exact le_refl _
      · intro m b hm hidx
        cases m
        · rw [h1] at hm; exact Option.noConfusion hm
        · rw [h2] at hm; exact Option.noConfusion hm
        · rw [h3] at hm; cases hm; simp [detectorIndex] at hidx
    · cases h
      refine ⟨h2, ?_, ?_⟩
      · intro m b hm
        cases m
        · rw [h1] at hm; exact Option.noConfusion hm
        · rw [h2] at hm; cases hm; exact le_refl _
        · rw [h3] at hm; exact Option.noConfusion hm
      · intro m b hm hidx
        cases m
        · rw [h1] at hm; exact Option.noConfusion hm
        · rw [h2] at hm; cases hm; simp [detectorIndex] at hidx
        · rw [h3] at hm; exact Option.noConfusion hm
    · split_ifs at h with hgt
      · cases h
        refine ⟨h3, ?_, ?_⟩
        · intro m b hm
          cases m
          · rw [h1] at hm; exact Option.noConfusion hm
          · rw [h2] at hm; cases hm; linarith
          · rw [h3] at hm; cases hm; exact le_refl _
        · intro m b hm hidx
          cases m
          · rw [h1] at hm; exact Option.noConfusion hm
          · rw [h2] at hm; cases hm; linarith
          · rw [h3] at hm; cases hm; simp [detectorIndex] at hidx
      · cases h
        refine ⟨h2, ?_, ?_⟩
        · intro m b hm
          cases m
          · rw [h1] at hm; exact Option.noConfusion hm
          · rw [h2] at hm; cases hm; exact le_refl _
          · rw [h3] at hm; cases hm; linarith
        · intro m b hm hidx
          cases m
          · rw [h1] at hm; exact Option.noConfusion hm
          · rw [h2] at hm; cases hm; simp [detectorIndex] at hidx
          · rw [h3] at hm; cases hm; simp [detectorIndex] at hidx
    · cases h
      refine ⟨h1, ?_, ?_⟩
      · intro m b hm
        cases m
        · rw [h1] at hm; cases hm; exact le_refl _
        · rw [h2] at hm; exact Option.noConfusion hm
        · rw [h3] at hm; exact Option.noConfusion hm
      · intro m b hm hidx
        cases m
        · rw [h1] at hm; cases hm; simp [detectorIndex] at hidx
        · rw [h2] at hm; exact Option.noConfusion hm
        · rw [h3] at hm; exact Option.noConfusion hm
    · split_ifs at h with hgt
      · cases h
        refine ⟨h3, ?_, ?_⟩
        · intro m b hm
          cases m
          · rw [h1] at hm; cases hm; linarith
          · rw [h2] at hm; exact Option.noConfusion hm
          · rw [h3] at hm; cases hm; exact le_refl _
        · intro m b hm hidx
          cases m
          · rw [h1] at hm; cases hm; linarith
          · rw [h2] at hm; exact Option.noConfusion hm
          · rw [h3] at hm; cases hm; simp [detectorIndex] at hidx
      · cases h
        refine ⟨h1, ?_, ?_⟩
        · intro m b hm
          cases m
          · rw [h1] at hm; cases hm; exact le_refl _
          · rw [h2] at hm; exact Option.noConfusion hm
          · rw [h3] at hm; cases hm; linarith
        · intro m b hm hidx
          cases m
          · rw [h1] at hm; cases hm; simp [detectorIndex] at hidx
          · rw [h2] at hm; exact Option.noConfusion hm
          · rw [h3] at hm; cases hm; simp [detectorIndex] at hidx
    · split_ifs at h with hgt
      · cases h
        refine ⟨h2, ?_, ?_⟩
        · intro m b hm
          cases m
          · rw [h1] at hm; cases hm; linarith
          · rw [h2] at hm; cases hm; exact le_refl _
          · rw [h3] at hm; exact Option.noConfusion hm
        · intro m b hm hidx
          cases m
          · rw [h1] at hm; cases hm; linarith
          · rw [h2] at hm; cases hm; simp [detectorIndex] at hidx
          · rw [h3] at hm; exact Option.noConfusion hm
      · cases h
        refine ⟨h1, ?_, ?_⟩
        · intro m b hm
          cases m
          · rw [h1] at hm; cases hm; exact le_refl _
          · rw [h2] at hm; cases hm; linarith
          · rw [h3] at hm; exact Option.noConfusion hm
        · intro m b hm hidx
          cases m
          · rw [h1] at hm; cases hm; simp [detectorIndex] at hidx
          · rw [h2] at hm; cases hm; simp [detectorIndex] at hidx
          · rw [h3] at hm; exact Option.noConfusion hm
    · split_ifs at h with hgt1 hgt2 hgt3
      · cases h
        refine ⟨h3, ?_, ?_⟩
        · intro m b hm
          cases m
          · rw [h1] at hm; cases hm; linarith
          · rw [h2] at hm; cases hm; linarith
          · rw [h3] at hm; cases hm; exact le_refl _
        · intro m b hm hidx
          cases m
          · rw [h1] at hm; cases hm; linarith
          · rw [h2] at hm; cases hm; linarith
          · rw [h3] at hm; cases hm; simp [detectorIndex] at hidx
      · cases h
        refine ⟨h2, ?_, ?_⟩
        · intro m b hm
          cases m
          · rw [h1] at hm; cases hm; linarith
          · rw [h2] at hm; cases hm; exact le_refl _
          · rw [h3] at hm; cases hm; linarith
        · intro m b hm hidx
          cases m
          · rw [h1] at hm; cases hm; linarith
          · rw [h2] at hm; cases hm; simp [detectorIndex] at hidx
          · rw [h3] at hm; cases hm; simp [detectorIndex] at hidx
      · cases h
        refine ⟨h3, ?_, ?_⟩
        · intro m b hm
          cases m
          · rw [h1] at hm; cases hm; linarith
          · rw [h2] at hm; cases hm; linarith
          · rw [h3] at hm; cases hm; exact le_refl _
        · intro m b hm hidx
          cases m
          · rw [h1] at hm; cases hm; linarith
          · rw [h2] at hm; cases hm; linarith
          · rw [h3] at hm; cases hm; simp [detectorIndex] at hidx
      · cases h
        refine ⟨h1, ?_, ?_⟩
        · intro m b hm
          cases m
          · rw [h1] at hm; cases hm; exact le_refl _
          · rw [h2] at hm; cases hm; linarith
          · rw [h3] at hm; cases hm; linarith
        · intro m b hm hidx
          cases m
          · rw [h1] at hm; cases hm; simp [detectorIndex] at hidx
          · rw [h2] at hm; cases hm; simp [detectorIndex] at hidx
          · rw [h3] at hm; cases hm; simp [detectorIndex] at hidx

/-- Witness outcome: IsolationForest and NS-RandomForest tie at AUC 1 while
OneClassSVM raises; the first-encountered variant (IsolationForest) wins. -/
def outcomeC1 : DetectorName → Option ℚ
  | .isolationForest => some 1
  | .oneClassSVM => none
  | .nsRandomForest => some 1

theorem train_and_select_best_spec_witness :
    trainAndSelectBest outcomeC1 = .ok (.isolationForest, 1) ∧
    (outcomeC1 .isolationForest = some 1 ∧
      (∀ m b, outcomeC1 m = some b → b ≤ 1) ∧
      (∀ m b, outcomeC1 m = some b →
        detectorIndex m < detectorIndex .isolationForest → b < 1)) ∧
    trainAndSelectBest (fun _ => none) = .error "All detectors failed to train" := by
  have heq : trainAndSelectBest outcomeC1 = .ok (.isolationForest, 1) := by
    simp [trainAndSelectBest, detectorResults, detectorOrder, outcomeC1]
  exact ⟨heq, (train_and_select_best_spec outcomeC1).2 _ _ heq,
    (train_and_select_best_spec (fun _ => none)).1 (fun _ => rfl)⟩

/-! ### Scorer (`predict_anomalies`, lines 311–353)

A scoring DataFrame is a column list, one association list of column values
per row (pandas rows are total over the frame's columns), and the frame's
index.  The persisted detector's `model.predict` is an oracle from the
projected sub-frame to the `class_prob` column (`.error` models any raise
inside the `try`, e.g. incompatible columns). -/

structure Frame where
  cols : List String
  rows : List (List (String × ℚ))
  index : List ℚ
deriving Repr, DecidableEq

/-- The value of column `c` in row `r` (pandas guarantees presence; `0` is
an unreachable default for ill-formed rows). -/
def lookupQ (r : List (String × ℚ)) (c : String) : ℚ := (r.lookup c).getD 0

/-- `fh_df.empty`: true when either axis has length 0. -/
def pandasEmpty (fh : Frame) : Bool := fh.rows.isEmpty || fh.cols.isEmpty

/-- Lines 333–335: `cols = feature_columns if feature_columns else ['F','H','P']`
followed by `cols = [c for c in cols if c in fh_df.columns]` (a `None` or
empty recorded list falls back, then only columns actually present are
kept). -/
def scoringCols (feature_columns : Option (List String)) (present : List String) :
    List String :=
  (match feature_columns with
    | none => ["F", "H", "P"]
    | some [] => ["F", "H", "P"]
    | some l => l).filter (fun c => present.contains c)

/-- Lines 337–339: the `time_rounded` column when present, else the frame's
index. -/
def frameTimestamps (fh : Frame) : List ℚ :=
  if fh.cols.contains "time_rounded" then fh.rows.map (fun r => lookupQ r "time_rounded")
  else fh.index

/-- `fh_df[cols]`: every row restricted to the selected columns. -/
def projectRows (fh : Frame) (cols : List String) : List (List (String × ℚ)) :=
  fh.rows.map (fun r => cols.map (fun c => (c, lookupQ r c)))

/-- `predict_anomalies(model, fh_df, threshold, feature_columns)`:
returns the timestamps of rows with `class_prob < threshold`
(`mask = result['class_prob'].values < threshold` zipped against the
timestamps), `[]` on empty input or when `model.predict` raises. -/
def predictAnomalies (predict : List (List (String × ℚ)) → Except String (List ℚ))
    (fh : Frame) (threshold : ℚ) (feature_columns : Option (List String)) : List ℚ :=
  if pandasEmpty fh then []
  else
    match predict (projectRows fh (scoringCols feature_columns fh.cols)) with
    | .error _ => []
    | .ok probs =>
      (((frameTimestamps fh).zip probs).filter (fun tp => decide (tp.2 < threshold))).map
        Prod.fst

/-- **C4**: a row is flagged iff its `class_prob` is strictly below the
threshold (a probability exactly equal to the threshold is NOT flagged), and
the output is the list of bucket timestamps — the `time_rounded` column when
present, never row positions — of the flagged rows in input order. -/
theorem predict_anomalies_strict_threshold
    (predict : List (List (String × ℚ)) → Except String (List ℚ))
    (fh : Frame) (thr : ℚ) (fc : Option (List String)) (probs : List ℚ)
    (hne : pandasEmpty fh = false)
    (hp : predict (projectRows fh (scoringCols fc fh.cols)) = .ok probs) :
    predictAnomalies predict fh thr fc =
      (((frameTimestamps fh).zip probs).filter (fun tp => decide (tp.2 < thr))).map
        Prod.fst ∧
    (∀ ts p, (ts, p) ∈ (frameTimestamps fh).zip probs → ¬p < thr →
      (ts, p) ∉ ((frameTimestamps fh).zip probs).filter (fun tp => decide (tp.2 < thr))) ∧
    (fh.cols.contains "time_rounded" = true →
      frameTimestamps fh = fh.rows.map (fun r => lookupQ r "time_rounded")) := by
  refine ⟨?_, ?_, ?_⟩
  · rw [predictAnomalies, hne, hp]
    rfl
  · intro ts p _ hnlt hmem
    have := (List.mem_filter.mp hmem).2
    simp at this
    exact hnlt this
  · intro h
    rw [frameTimestamps, if_pos h]

/-- Witness frame for the Scorer: three rows with `class_prob` 0, 1 and 2
against threshold 1 — only the probability strictly below 1 is flagged; the
row at exactly the threshold is not; the output is its `time_rounded`
value. -/
def fhC4 : Frame :=
  ⟨["F", "H", "time_rounded"],
   [[("F", 0), ("H", 0), ("time_rounded", 100)],
    [("F", 0), ("H", 0), ("time_rounded", 200)],
    [("F", 0), ("H", 0), ("time_rounded", 300)]],
   [0, 1, 2]⟩

def predictC4 : List (List (String × ℚ)) → Except String (List ℚ) :=
  fun _ => .ok [0, 1, 2]

theorem predict_anomalies_strict_threshold_witness :
    pandasEmpty fhC4 = false ∧
    predictC4 (projectRows fhC4 (scoringCols none fhC4.cols)) = .ok ([0, 1, 2] : List ℚ) ∧
    predictAnomalies predictC4 fhC4 1 none = [100] ∧
    (predictAnomalies predictC4 fhC4 1 none =
      (((frameTimestamps fhC4).zip ([0, 1, 2] : List ℚ)).filter (fun tp => decide (tp.2 < 1))).map
        Prod.fst ∧
    (∀ ts p, (ts, p) ∈ (frameTimestamps fhC4).zip ([0, 1, 2] : List ℚ) → ¬p < 1 →
      (ts, p) ∉ ((frameTimestamps fhC4).zip ([0, 1, 2] : List ℚ)).filter (fun tp => decide (tp.2 < 1))) ∧
    (fhC4.cols.contains "time_rounded" = true →
      frameTimestamps fhC4 = fhC4.rows.map (fun r => lookupQ r "time_rounded"))) :=
  ⟨by decide, rfl, by decide,
    predict_anomalies_strict_threshold predictC4 fhC4 1 none ([0, 1, 2] : List ℚ) (by decide) rfl⟩

/-- The claim's "fixed 2-column fallback" is false on the code: with no
recorded feature columns and all of `F`, `H`, `P` present, the Scorer
requests the fixed THREE-column fallback `['F','H','P']` — the stale
docstring (line 318) says `['F','H']` but line 333 uses `['F','H','P']`. -/
theorem scoring_cols_fallback_counterexample :
    scoringCols none ["F", "H", "P"] = ["F", "H", "P"] ∧
    (["F", "H", "P"] : List String).length ≠ 2 := by
  decide

/-- **C5 (amended)**: when no feature-column list is recorded (`None` or
empty), the Scorer defaults to the fixed 3-column fallback `['F','H','P']`
(not a 2-column list), and in every case restricts scoring to the requested
columns actually present in the input. -/
theorem scoring_cols_fallback_spec (fc : Option (List String)) (present : List String) :
    ((fc = none ∨ fc = some []) →
      scoringCols fc present = ["F", "H", "P"].filter (fun c => present.contains c)) ∧
    (∀ l, l ≠ [] → fc = some l →
      scoringCols fc present = l.filter (fun c => present.contains c)) ∧
    (∀ c ∈ scoringCols fc present, c ∈ present) := by
  refine ⟨?_, ?_, ?_⟩
  · rintro (rfl | rfl) <;> rfl
  · intro l hl hfc
    subst hfc
    cases l with
    | nil => exact absurd rfl hl
    | cons a t => rfl
  · intro c hc
    have := (List.mem_filter.mp hc).2
    simpa using this

theorem scoring_cols_fallback_spec_witness :
    ((some [] : Option (List String)) = none ∨ (some [] : Option (List String)) = some []) ∧
    scoringCols (some []) ["F", "P", "X"] =
      ["F", "H", "P"].filter (fun c => (["F", "P", "X"] : List String).contains c) ∧
    ((["F", "P"] : List String) ≠ []) ∧
    scoringCols (some ["F", "P"]) ["F", "X"] =
      ["F", "P"].filter (fun c => (["F", "X"] : List String).contains c) :=
  ⟨Or.inr rfl,
    (scoring_cols_fallback_spec (some []) ["F", "P", "X"]).1 (Or.inr rfl),
    by decide,
    (scoring_cols_fallback_spec (some ["F", "P"]) ["F", "X"]).2.1 ["F", "P"] (by decide) rfl⟩

/-- **C9**: the Scorer returns the empty list without raising both on empty
input and when the detector's `predict` raises for any reason; a prediction
failure is caught and never propagated. -/
theorem predict_anomalies_best_effort
    (predict : List (List (String × ℚ)) → Except String (List ℚ))
    (fh : Frame) (thr : ℚ) (fc : Option (List String)) :
    (pandasEmpty fh = true → predictAnomalies predict fh thr fc = []) ∧
    (∀ e, predict (projectRows fh (scoringCols fc fh.cols)) = .error e →
      predictAnomalies predict fh thr fc = []) := by
  constructor
  · intro h
    rw [predictAnomalies, h]
    rfl
  · intro e he
    rw [predictAnomalies]
    by_cases h : pandasEmpty fh = true
    · rw [h]
      rfl
    · rw [Bool.not_eq_true] at h
      rw [h, he]
      rfl

def predictC9 : List (List (String × ℚ)) → Except String (List ℚ) :=
  fun _ => .error "columns are missing"

theorem predict_anomalies_best_effort_witness :
    (pandasEmpty ⟨["F"], [], []⟩ = true ∧
      predictAnomalies predictC9 ⟨["F"], [], []⟩ (1/2) none = []) ∧
    (predictC9 (projectRows fhC4 (scoringCols none fhC4.cols)) = .error "columns are missing" ∧
      predictAnomalies predictC9 fhC4 (1/2) none = []) :=
  ⟨⟨by decide, (predict_anomalies_best_effort predictC9 ⟨["F"], [], []⟩ (1/2) none).1 (by decide)⟩,
    ⟨rfl, (predict_anomalies_best_effort predictC9 fhC4 (1/2) none).2 _ rfl⟩⟩

/-! ### Model Store (`save_model` / `load_model` / `model_exists`, lines 248–304)

One gateway's `models/{gateway_id}/` directory as explicit state: whether the
directory exists and the contents (opaque strings) of the two files
`model.joblib` and `metadata.json` (`none` = absent).  The fallible
filesystem calls (`os.makedirs`, `joblib.dump`, `open`+`json.dump`) are
oracle booleans; a failing write is modelled as leaving its target file
unchanged.  `save_model` returns the raised error together with the
post-state so rollback behaviour is observable. -/

structure ModelStore where
  dirExists : Bool
  modelFile : Option String
  metaFile : Option String
deriving Repr, DecidableEq

/-- `save_model(gateway_id, model, ...)` on one gateway's store:
`makedirs` (re-raised on failure), `joblib.dump` to `model.joblib`
(re-raised), then the metadata write — on metadata failure the just-written
`model.joblib` is removed (`os.remove` after the `os.path.isfile` check,
lines 286–287) before the exception propagates. -/
def saveModel (σ : ModelStore) (art meta : String)
    (mkdirFails dumpFails metaFails : Bool) : Except (String × ModelStore) ModelStore :=
  if mkdirFails then .error ("makedirs failed", σ)
  else
    let σ1 : ModelStore := ⟨true, σ.modelFile, σ.metaFile⟩
    if dumpFails then .error ("joblib.dump failed", σ1)
    else
      let σ2 : ModelStore := ⟨true, some art, σ1.metaFile⟩
      if metaFails then
        let σ3 : ModelStore :=
          if σ2.modelFile.isSome then ⟨σ2.dirExists, none, σ2.metaFile⟩ else σ2
        .error ("metadata write failed", σ3)
      else .ok ⟨true, some art, some meta⟩

/-- `load_model(gateway_id)`: `joblib.load` raises when `model.joblib` is
absent, then `open(metadata.json)` raises when the metadata record is
absent. -/
def loadModel (σ : ModelStore) : Except String (String × String) :=
  match σ.modelFile with
  | none => .error "FileNotFoundError: model.joblib"
  | some m =>
    match σ.metaFile with
    | none => .error "FileNotFoundError: metadata.json"
    | some md => .ok (m, md)

/-- `model_exists(gateway_id)`: `os.path.isfile(.../model.joblib)` only. -/
def modelExists (σ : ModelStore) : Bool := σ.modelFile.isSome

/-- The claim's parenthetical "the store is restored to its pre-save
condition on metadata failure" is false on the code: when a previous
training run left an artifact and metadata in place, a re-save whose
metadata write fails removes the (overwritten) `model.joblib` but leaves the
old `metadata.json`, so the post-state differs from the pre-save state. -/
theorem save_model_rollback_counterexample :
    saveModel ⟨true, some "old-model", some "old-meta"⟩ "new-model" "new-meta"
        false false true
      = .error ("metadata write failed", ⟨true, none, some "old-meta"⟩) ∧
    (⟨true, none, some "old-meta"⟩ : ModelStore) ≠
      ⟨true, some "old-model", some "old-meta"⟩ :=
  ⟨rfl, by decide⟩

/-- **C8 (amended)**: if the detector write succeeds and the metadata write
fails, `save_model` removes the just-written `model.joblib` before
propagating the error, so no reachable post-state holds a detector artifact
without its metadata record; the store is restored to its exact pre-save
condition only when no artifact was present before the save (a pre-existing
artifact is removed, not restored). -/
theorem save_model_meta_failure_rollback (σ : ModelStore) (art meta : String) :
    saveModel σ art meta false false true =
      .error ("metadata write failed", ⟨true, none, σ.metaFile⟩) ∧
    (∀ e σ', saveModel σ art meta false false true = .error (e, σ') →
      σ'.modelFile = none) ∧
    (σ.modelFile = none → σ.dirExists = true →
      (⟨true, none, σ.metaFile⟩ : ModelStore) = σ) := by
  refine ⟨rfl, ?_, ?_⟩
  · intro e σ' h
    rw [saveModel] at h
    simp only [if_neg Bool.false_ne_true, if_pos rfl] at h
    cases h
    rfl
  · intro h1 h2
    cases σ
    simp_all

theorem save_model_meta_failure_rollback_witness :
    saveModel ⟨true, none, none⟩ "art" "meta" false false true =
      .error ("metadata write failed", ⟨true, none, none⟩) ∧
    (∀ e σ', saveModel ⟨true, none, none⟩ "art" "meta" false false true = .error (e, σ') →
      σ'.modelFile = none) ∧
    ((⟨true, none, none⟩ : ModelStore).modelFile = none →
      (⟨true, none, none⟩ : ModelStore).dirExists = true →
      (⟨true, none, (⟨true, none, none⟩ : ModelStore).metaFile⟩ : ModelStore) =
        ⟨true, none, none⟩) ∧
    ((⟨true, none, (⟨true, none, none⟩ : ModelStore).metaFile⟩ : ModelStore) =
      ⟨true, none, none⟩) := by
  obtain ⟨ha, hb, hc⟩ := save_model_meta_failure_rollback ⟨true, none, none⟩ "art" "meta"
  exact ⟨ha, hb, fun _ _ => hc rfl rfl, hc rfl rfl⟩

/-- **C10**: `model_exists` is true exactly when the detector artifact
`model.joblib` is present; it never examines the metadata record, so in any
state holding the artifact but no `metadata.json`, `model_exists` answers
true while `load_model` raises on that same gateway. -/
theorem model_exists_iff_artifact (σ : ModelStore) :
    (modelExists σ = true ↔ σ.modelFile.isSome = true) ∧
    (∀ m, modelExists ⟨σ.dirExists, σ.modelFile, m⟩ = modelExists σ) ∧
    (σ.modelFile.isSome = true → σ.metaFile = none →
      modelExists σ = true ∧ loadModel σ = .error "FileNotFoundError: metadata.json") := by
  refine ⟨Iff.rfl, fun m => rfl, ?_⟩
  intro h1 h2
  obtain ⟨m, hm⟩ := Option.isSome_iff_exists.mp h1
  refine ⟨h1, ?_⟩
  rw [loadModel]
  rw [hm, h2]

theorem model_exists_iff_artifact_witness :
    ((⟨true, some "m", none⟩ : ModelStore).modelFile.isSome = true) ∧
    ((⟨true, some "m", none⟩ : ModelStore).metaFile = none) ∧
    (modelExists ⟨true, some "m", none⟩ = true ∧
      loadModel ⟨true, some "m", none⟩ = .error "FileNotFoundError: metadata.json") :=
  ⟨rfl, rfl, (model_exists_iff_artifact ⟨true, some "m", none⟩).2.2 rfl rfl⟩

/-! ### Gateway orchestration (`train_for_gateway`, lines 360–389)

`train_and_select_best` (with the dropped `time_rounded` column) and
`save_model` enter as oracles over the aligned frame; the detector object
itself is opaque and omitted from the `train` oracle's result.  Note that
the `save_model` call on line 384 is OUTSIDE the `try` block, so a
persistence failure escapes `train_for_gateway` as an exception — modelled
by the `.error` result. -/

/-- `c.rsplit('_', 1)[0]`: everything before the last underscore (the whole
string when it has no underscore). -/
def nodePrefix (c : String) : String :=
  let parts := c.splitOn "_"
  if parts.length ≤ 1 then c else "_".intercalate parts.dropLast

/-- `nodes = sorted({c.rsplit('_', 1)[0] for c in feature_cols})`. -/
def gatewayNodes (feature_cols : List String) : List String :=
  ((feature_cols.map nodePrefix).dedup).insertionSort (· ≤ ·)

/-- Python `round(x, 4)` (round half to even at 4 decimal places), applied
to the AUC in the `done` payload. -/
def pyRound4 (x : ℚ) : ℚ :=
  let y := x * 10000
  let f := ⌊y⌋
  let r := y - f
  (if r < 1/2 then (f : ℚ)
   else if 1/2 < r then (f : ℚ) + 1
   else if f % 2 = 0 then (f : ℚ) else (f : ℚ) + 1) / 10000

/-- The structured per-gateway outcome dicts built by `train_for_gateway`. -/
inductive TrainOutcome
  | skipped (gateway_id : String) (reason : String)
  | failed (gateway_id : String) (error : String)
  | done (gateway_id : String) (model_type : String) (auc : ℚ)
      (feature_columns : List String) (nodes : List String) (num_rows : ℕ)
deriving Repr, DecidableEq

/-- `train_for_gateway(gateway_id, db)`: skip on insufficient aligned data,
catch training failures as a `failed` outcome, then persist (uncaught) and
report `done`. -/
def trainForGateway (gateway_id : String)
    (queryResult : Except String (List RawRow))
    (train : GatewayFrame → Except String (String × ℚ × List String))
    (save : String → String → ℚ → List String → List String → ℕ → Except String Unit) :
    Except String (List TrainOutcome) :=
  match getGatewayDataframe queryResult with
  | none => .ok [.skipped gateway_id "insufficient aligned data"]
  | some gw_df =>
    match train gw_df with
    | .error e => .ok [.failed gateway_id e]
    | .ok (model_type, auc, feature_cols) =>
      let nodes := gatewayNodes feature_cols
      let num_rows := gw_df.rows.length
      match save gateway_id model_type auc feature_cols nodes num_rows with
      | .error e => .error e
      | .ok _ => .ok [.done gateway_id model_type (pyRound4 auc) feature_cols nodes num_rows]

/-- The claim "never lets a bare exception escape to the caller, including
when persisting the model (save_model) fails" is false on the code:
`save_model` is called outside the `try` (line 384), so its exception
escapes `train_for_gateway` instead of becoming a structured outcome. -/
theorem train_for_gateway_save_failure_counterexample :
    trainForGateway "gw1" (.ok rawC3)
      (fun _ => .ok ("IsolationForest", 1, ["1_H"]))
      (fun _ _ _ _ _ _ => .error "disk full")
      = .error "disk full" := by
  rw [trainForGateway, getGatewayDataframe_rawC3_eval]

/-- **C6 (amended)**: `train_for_gateway` returns the structured outcome
`{status: skipped, reason}` on insufficient aligned data, `{status: failed,
error}` when training (all three variants) fails, and `{status: done, ...}`
on full success — but a `save_model` failure is NOT caught: it propagates to
the caller as an exception (consistent with the spec's persistence-failure
policy, contradicting its "never a bare exception" sentence). -/
theorem train_for_gateway_spec (gid : String) (q : Except String (List RawRow))
    (train : GatewayFrame → Except String (String × ℚ × List String))
    (save : String → String → ℚ → List String → List String → ℕ → Except String Unit) :
    (getGatewayDataframe q = none →
      trainForGateway gid q train save = .ok [.skipped gid "insufficient aligned data"]) ∧
    (∀ gf, getGatewayDataframe q = some gf →
      (∀ e, train gf = .error e →
        trainForGateway gid q train save = .ok [.failed gid e]) ∧
      (∀ mt auc fcols, train gf = .ok (mt, auc, fcols) →
        (∀ e, save gid mt auc fcols (gatewayNodes fcols) gf.rows.length = .error e →
          trainForGateway gid q train save = .error e) ∧
        (save gid mt auc fcols (gatewayNodes fcols) gf.rows.length = .ok () →
          trainForGateway gid q train save =
            .ok [.done gid mt (pyRound4 auc) fcols (gatewayNodes fcols)
              gf.rows.length]))) := by
  constructor
  · intro h
    rw [trainForGateway, h]
  · intro gf hgf
    constructor
    · intro e he
      simp only [trainForGateway, hgf, he]
    · intro mt auc fcols ht
      constructor
      · intro e he
        simp only [trainForGateway, hgf, ht, he]
      · intro hs
        simp only [trainForGateway, hgf, ht, hs]

theorem train_for_gateway_spec_witness :
    (getGatewayDataframe (.error "mongo down") = none ∧
      trainForGateway "gw1" (.error "mongo down")
        (fun _ => .error "All detectors failed to train")
        (fun _ _ _ _ _ _ => .ok ())
        = .ok [.skipped "gw1" "insufficient aligned data"]) ∧
    (trainForGateway "gw1" (.ok rawC3)
        (fun _ => .error "All detectors failed to train")
        (fun _ _ _ _ _ _ => .ok ())
        = .ok [.failed "gw1" "All detectors failed to train"]) ∧
    (trainForGateway "gw1" (.ok rawC3)
        (fun _ => .ok ("IsolationForest", 1, ["1_H"]))
        (fun _ _ _ _ _ _ => .ok ())
        = .ok [.done "gw1" "IsolationForest" (pyRound4 1) ["1_H"]
            (gatewayNodes ["1_H"]) gfC3.rows.length]) := by
  refine ⟨⟨rfl, ?_⟩, ?_, ?_⟩
  · exact (train_for_gateway_spec "gw1" (.error "mongo down")
      (fun _ => .error "All detectors failed to train") (fun _ _ _ _ _ _ => .ok ())).1 rfl
  · exact (((train_for_gateway_spec "gw1" (.ok rawC3)
      (fun _ => .error "All detectors failed to train") (fun _ _ _ _ _ _ => .ok ())).2
      gfC3 getGatewayDataframe_rawC3_eval).1 "All detectors failed to train" rfl)
  · exact ((((train_for_gateway_spec "gw1" (.ok rawC3)
      (fun _ => .ok ("IsolationForest", 1, ["1_H"])) (fun _ _ _ _ _ _ => .ok ())).2
      gfC3 getGatewayDataframe_rawC3_eval).2 "IsolationForest" 1 ["1_H"] rfl).2 rfl)

end SensorIoT
